import Mathlib

/-!
Verification of the display-configuration core of libthinkpad
(header `src/lib/libthinkdock.h`, namespace `ThinkDock::DisplayManager`).

The repository ships only the header: class declarations, field
declarations with their in-class initializers, and doc comments.  Method
bodies are not part of the available sources, so every method body below
is modelled from the specification (`spec.md`), while all data layout
facts (field types, the unsigned `_point` struct, default member
initializers, the single `primaryMonitor` pointer, the `void` return type
of `commit`) are taken from the header itself, which is authoritative.

Machine integers: the `_point` struct stores `unsigned int` coordinates,
so coordinate arithmetic is carried out on `Nat` reduced modulo `2 ^ 32`.
-/

namespace ThinkDock

namespace DisplayManager

/-- Unsigned 32-bit addition as performed on the `unsigned int` fields of
the `_point` struct: the mathematical sum reduced modulo `2 ^ 32`. -/
def uadd32 (a b : Nat) : Nat := (a + b) % 2 ^ 32

/-- Unsigned 32-bit subtraction as performed on the `unsigned int` fields
of the `_point` struct: `a - b` computed modulo `2 ^ 32` (C unsigned
arithmetic, which wraps around instead of going negative). -/
def usub32 (a b : Nat) : Nat := (a + (2 ^ 32 - b % 2 ^ 32)) % 2 ^ 32

/-- The `_point` struct of the header (lines 423-426): virtual screen
coordinates stored in two `unsigned int` fields. -/
structure point where
  x : Nat
  y : Nat
deriving DecidableEq

/-- The `_dimensions` struct of the header (lines 428-431). -/
structure dimensions where
  width : Nat
  height : Nat
deriving DecidableEq

/-- Modelled from the spec: one display timing.  The header stores an
opaque `XRRModeInfo` pointer; the spec data model (section 3) lists the
fields as id, width, height, raw refresh, interlace flag, doublescan
flag.  The raw refresh rate is kept as a rational so that the doubling
and halving of section 4.1 are exact. -/
structure VideoOutputMode where
  width : Nat
  height : Nat
  rawRefresh : ℚ
  interlace : Bool
  doubleScan : Bool
deriving DecidableEq

/-- Modelled from the spec: the body of `VideoOutputMode::getRefreshRate`
is not in the sources.  Per spec section 4.1 (and the header doc comment
on lines 140-145, which says the raw reported rate is corrected for
DoubleScan and Interlace): if the mode is interlaced only, perceived
refresh is raw times 2; if double-scanned only, raw divided by 2;
otherwise (neither flag, or both flags) raw unchanged. -/
def VideoOutputMode.getRefreshRate (m : VideoOutputMode) : ℚ :=
  if m.interlace && !m.doubleScan then m.rawRefresh * 2
  else if m.doubleScan && !m.interlace then m.rawRefresh / 2
  else m.rawRefresh

/-- Modelled from the spec: one physical output port (header class
`VideoOutput`).  Spec section 3 lists: connected flag, physical size in
millimeters, and the set of controller ids the output may bind to. -/
structure VideoOutput where
  connected : Bool
  widthMm : Nat
  heightMm : Nat
  supportedControllers : List Nat
deriving DecidableEq

/-- Modelled from the spec: one video display controller (header class
`VideoController`).  Spec section 3: id, position, pixel size, nullable
bound mode, active output set, supported output set. -/
structure VideoController where
  id : Nat
  pos : point
  widthPixels : Nat
  heightPixels : Nat
  mode : Option VideoOutputMode
  activeOutputs : List VideoOutput
deriving DecidableEq

/-- Modelled from the spec: `VideoOutput::isControllerSupported` (header
line 187) is a pure membership test of the controller id against the
capability set of the output (spec section 4.2); no mutation. -/
def VideoOutput.isControllerSupported (o : VideoOutput) (c : VideoController) : Bool :=
  o.supportedControllers.contains c.id

/-- Modelled from the spec: `VideoController::isEnabled` (header line
297) is true iff the controller currently has at least one active output
and a bound mode (spec section 4.3). -/
def VideoController.isEnabled (c : VideoController) : Bool :=
  !c.activeOutputs.isEmpty && c.mode.isSome

/-- Modelled from the spec: `VideoController::resetConfiguration` (header
line 295, returning a success flag) clears the active-output set and the
bound mode, releasing the VDC (spec section 4.3). -/
def VideoController.resetConfiguration (c : VideoController) : VideoController × Bool :=
  ({ c with activeOutputs := [], mode := none }, true)

/-- The `Monitor` class fields with in-class initializers, taken directly
from the header (lines 357-372): the three references start null, the
four cached extents start at zero, and the limits-calculated flag starts
false.  The four wing pointers carry no initializer in the header and are
modelled outside this record, as indices in a `MonitorGraph` (the arena
representation recommended by spec section 9). -/
structure Monitor where
  videoMode : Option VideoOutputMode := none
  videoController : Option VideoController := none
  videoOutput : Option VideoOutput := none
  xAxisMaxHeight : Nat := 0
  yAxisMaxWidth : Nat := 0
  xAxisMaxHeightmm : Nat := 0
  yAxisMaxWidthmm : Nat := 0
  limitsCalculated : Bool := false
deriving DecidableEq

/-- A freshly constructed `Monitor`: every field takes its in-class
initializer from the header. -/
def Monitor.new : Monitor := {}

/-- Modelled from the spec: `Monitor::isControllerSupported` (header line
381) delegates the capability check to the Output bound to this Monitor;
with no Output bound there is nothing the check can succeed against. -/
def Monitor.isControllerSupported (m : Monitor) (c : VideoController) : Bool :=
  match m.videoOutput with
  | none => false
  | some o => o.isControllerSupported c

/-- Modelled from the spec: `Monitor::setController` (header line 380)
validates `isControllerSupported` against the Output of the Monitor and
fails with no mutation if unsupported (spec section 4.4). -/
def Monitor.setController (m : Monitor) (c : VideoController) : Bool × Monitor :=
  if m.isControllerSupported c then (true, { m with videoController := some c })
  else (false, m)

/-- Modelled from the spec: `Monitor::setOutput` (header line 378) binds
the output reference. -/
def Monitor.setOutput (m : Monitor) (o : VideoOutput) : Monitor :=
  { m with videoOutput := some o }

/-- Modelled from the spec: `Monitor::setOutputMode` (header line 379)
binds the mode reference; per the invariant of spec section 3 the cached
limits must be invalidated whenever the mode of the Monitor changes, so
the limits-calculated flag is cleared. -/
def Monitor.setOutputMode (m : Monitor) (mode : VideoOutputMode) : Monitor :=
  { m with videoMode := some mode, limitsCalculated := false }

/-- Modelled from the spec: `Monitor::calculateLimits` (header line 374)
is memoized: if the limits-calculated flag is set the call is a no-op;
otherwise, when both a Mode and an Output are bound, it computes the
pixel extents from the Mode and the physical extents from the Output and
sets the flag (spec section 4.4).  Without both references bound there is
nothing to compute and the state is left unchanged. -/
def Monitor.calculateLimits (m : Monitor) : Monitor :=
  if m.limitsCalculated then m
  else
    match m.videoMode, m.videoOutput with
    | some md, some o =>
      { m with xAxisMaxHeight := md.height, yAxisMaxWidth := md.width,
               xAxisMaxHeightmm := o.heightMm, yAxisMaxWidthmm := o.widthMm,
               limitsCalculated := true }
    | _, _ => m

/-- The wing graph of Monitors.  The header stores the four wing
neighbors as raw `Monitor*` pointers inside each Monitor (lines 361-364,
with no initializer); following the arena representation recommended by
spec section 9, the graph is modelled as `n` Monitor records indexed by
`Fin n` together with one partial neighbor map per direction. -/
structure MonitorGraph (n : Nat) where
  mon : Fin n → Monitor
  rightWing : Fin n → Option (Fin n)
  leftWing : Fin n → Option (Fin n)
  topWing : Fin n → Option (Fin n)
  bottomWing : Fin n → Option (Fin n)

/-- Pixel width of one Monitor of the graph: the width of its bound Mode
(zero when no Mode is bound). -/
def MonitorGraph.width {n : Nat} (g : MonitorGraph n) (i : Fin n) : Nat :=
  match (g.mon i).videoMode with
  | some md => md.width
  | none => 0

/-- Pixel height of one Monitor of the graph: the height of its bound
Mode (zero when no Mode is bound). -/
def MonitorGraph.height {n : Nat} (g : MonitorGraph n) (i : Fin n) : Nat :=
  match (g.mon i).videoMode with
  | some md => md.height
  | none => 0

/-- Iterated walk along one wing direction: `iterW wing k i` is the
Monitor reached from `i` after `k` steps of the neighbor map, or `none`
if the chain ends before `k` steps. -/
def iterW {n : Nat} (wing : Fin n → Option (Fin n)) : Nat → Fin n → Option (Fin n)
  | 0, i => some i
  | k + 1, i =>
    match wing i with
    | none => none
    | some j => iterW wing k j

/-- Acyclicity of one wing direction: no chain of between one and
`n + 1` steps returns to its starting Monitor.  Since the graph has only
`n` Monitors, any directional cycle would already close within `n` steps,
so this bounded form captures acyclicity of the direction while staying
decidable on concrete graphs. -/
def AcyclicChains {n : Nat} (wing : Fin n → Option (Fin n)) : Prop :=
  ∀ i : Fin n, ∀ k : Nat, k < n + 2 → 0 < k → iterW wing k i ≠ some i

instance decAcyclicChains {n : Nat} (wing : Fin n → Option (Fin n)) :
    Decidable (AcyclicChains wing) :=
  decidable_of_iff
    (∀ i : Fin n, ∀ k : Nat, k < n + 2 → 0 < k → iterW wing k i ≠ some i)
    Iff.rfl

/-- Pointwise update of the position assignment at one Monitor index. -/
def updPos {n : Nat} (pos : Fin n → point) (j : Fin n) (p : point) : Fin n → point :=
  fun k => if k = j then p else pos k

/-- Modelled from the spec: the single-direction chain walk inside
`Monitor::calculateMonitorPositions`, whose body is not in the sources.
Starting at Monitor `i` with the positions computed so far, it follows
the wing map, assigning each neighbor the position `mk` derived from the
position of the current Monitor (spec section 4.4), until the chain ends.
The spec notes (sections 3 and 9) that the source walks the chain with no
cycle guard, so a cycle means non-termination; the walk therefore carries
explicit fuel and answers `none` when the fuel runs out before the chain
ends. -/
def walkWing {n : Nat} (wing : Fin n → Option (Fin n))
    (mk : point → Fin n → Fin n → point) :
    Nat → Fin n → (Fin n → point) → Option (Fin n → point)
  | 0, i, pos =>
    match wing i with
    | none => some pos
    | some _ => none
  | fuel + 1, i, pos =>
    match wing i with
    | none => some pos
    | some j => walkWing wing mk fuel j (updPos pos j (mk (pos i) i j))

/-- Position rule for a right neighbor (spec section 4.4): x of the
neighbor is x of this Monitor plus the width of this Monitor; y is
unchanged.  Arithmetic on the unsigned point fields, modulo 2^32. -/
def mkRight {n : Nat} (g : MonitorGraph n) (pt : point) (i _j : Fin n) : point :=
  ⟨uadd32 pt.x (g.width i), pt.y⟩

/-- Position rule for a left neighbor (spec section 4.4): x of the
neighbor is x of this Monitor minus the width of the neighbor itself; y
is unchanged.  Arithmetic on the unsigned point fields, modulo 2^32. -/
def mkLeft {n : Nat} (g : MonitorGraph n) (pt : point) (_i j : Fin n) : point :=
  ⟨usub32 pt.x (g.width j), pt.y⟩

/-- Position rule for a bottom neighbor (spec section 4.4): y of the
neighbor is y of this Monitor plus the height of this Monitor; x is
unchanged. -/
def mkBottom {n : Nat} (g : MonitorGraph n) (pt : point) (i _j : Fin n) : point :=
  ⟨pt.x, uadd32 pt.y (g.height i)⟩

/-- Position rule for a top neighbor (spec section 4.4): y of the
neighbor is y of this Monitor minus the height of the neighbor itself; x
is unchanged. -/
def mkTop {n : Nat} (g : MonitorGraph n) (pt : point) (_i j : Fin n) : point :=
  ⟨pt.x, usub32 pt.y (g.height j)⟩

/-- Modelled from the spec: `Monitor::calculateMonitorPositions` (header
line 397), whose body is not in the sources.  Per spec section 4.4 the
placement starts from the primary Monitor at (0,0) and propagates
outward, walking each single-direction wing chain and accumulating
offsets with the four neighbor rules.  Positions live in the `_point`
struct of the header, whose fields are unsigned 32-bit integers.  The
result is `none` when some chain exhausts the fuel (the walk of the
source has no cycle guard). -/
def calculateMonitorPositions {n : Nat} (g : MonitorGraph n) (p : Fin n)
    (fuel : Nat) : Option (Fin n → point) :=
  (walkWing g.rightWing (mkRight g) fuel p (fun _ => ⟨0, 0⟩)).bind fun pos1 =>
  (walkWing g.leftWing (mkLeft g) fuel p pos1).bind fun pos2 =>
  (walkWing g.topWing (mkTop g) fuel p pos2).bind fun pos3 =>
  walkWing g.bottomWing (mkBottom g) fuel p pos3

/-- Modelled from the spec: `Monitor::getTotalWidth` (header line 393,
returning `unsigned int`), whose body is not in the sources.  Per spec
section 4.4 the total width is the own width of this Monitor plus the
total width of its right wing, recursively, terminating at a Monitor with
no right neighbor; the sum is carried in an unsigned 32-bit integer.  The
recursion over the chain carries explicit fuel. -/
def MonitorGraph.getTotalWidth {n : Nat} (g : MonitorGraph n) :
    Nat → Fin n → Nat
  | 0, i => g.width i
  | fuel + 1, i =>
    match g.rightWing i with
    | none => g.width i
    | some j => uadd32 (g.width i) (g.getTotalWidth fuel j)

/-- Demonstration graph of spec section 8: the primary Monitor P (index
0, mode 800x600) with a right-wing neighbor R (index 1, mode 1024x768). -/
def demoGraph : MonitorGraph 2 where
  mon := fun i =>
    if i = 0 then { Monitor.new with videoMode := some ⟨800, 600, 60, false, false⟩ }
    else { Monitor.new with videoMode := some ⟨1024, 768, 60, false, false⟩ }
  rightWing := fun i => if i = 0 then some 1 else none
  leftWing := fun _ => none
  topWing := fun _ => none
  bottomWing := fun _ => none

/-- Demonstration graph for the wrap-around behavior: the primary Monitor
(index 0, mode 800x600) with a left-wing neighbor of width 1024 (index 1)
and a top-wing neighbor of height 480 (index 2). -/
def wrapGraph : MonitorGraph 3 where
  mon := fun i =>
    if i = 0 then { Monitor.new with videoMode := some ⟨800, 600, 60, false, false⟩ }
    else if i = 1 then { Monitor.new with videoMode := some ⟨1024, 768, 60, false, false⟩ }
    else { Monitor.new with videoMode := some ⟨640, 480, 60, false, false⟩ }
  rightWing := fun _ => none
  leftWing := fun i => if i = 0 then some 1 else none
  topWing := fun i => if i = 0 then some 2 else none
  bottomWing := fun _ => none

/-- The `ConfigurationManager` class (header lines 406-421): the Monitor
set with its wing graph, the primary designation, and the staged result
of the last commit.  The header holds the primary as one single
`Monitor *primaryMonitor` pointer, so zero primaries (null) or one
primary are the only representable designations; the pointer is modelled
as an optional index into the graph.  The `staged` field models the
per-Controller positions pushed into the Controller objects by a
successful commit. -/
structure ConfigurationManager (n : Nat) where
  graph : MonitorGraph n
  primaryMonitor : Option (Fin n)
  staged : Option (Fin n → point)

/-- Modelled from the spec: `ConfigurationManager::setMonitorPrimary`
(header line 416) designates the given Monitor as the primary by
assigning the single primary pointer; the previous designation is
overwritten in the same assignment (spec section 4.5). -/
def ConfigurationManager.setMonitorPrimary {n : Nat}
    (cm : ConfigurationManager n) (m : Fin n) : ConfigurationManager n :=
  { cm with primaryMonitor := some m }

/-- Modelled from the spec: `ConfigurationManager::commit` (header line
419), whose body is not in the sources.  The header declares it as
`void commit();`, so the call returns no value; the returned component is
therefore `Unit`.  Per spec section 4.5 the commit first verifies that a
primary is designated and aborts before any position computation or
Controller mutation if not; otherwise it runs the position calculation
from the primary and stages the computed positions into the
Controllers. -/
def ConfigurationManager.commit {n : Nat} (cm : ConfigurationManager n) :
    ConfigurationManager n × Unit :=
  match cm.primaryMonitor with
  | none => (cm, ())
  | some p =>
    match calculateMonitorPositions cm.graph p n with
    | none => (cm, ())
    | some pos => ({ cm with staged := some pos }, ())

/-- Concrete manager over the demonstration graph with no primary
designated. -/
def cmNoPrimary : ConfigurationManager 2 := ⟨demoGraph, none, none⟩

/-- Concrete manager over the demonstration graph with Monitor 0
designated primary. -/
def cmWithPrimary : ConfigurationManager 2 := ⟨demoGraph, some 0, none⟩

end DisplayManager

end ThinkDock

namespace ThinkDock

namespace DisplayManager

/-- C1: for every Mode, `getRefreshRate` returns the raw rate times 2
when only the interlace flag is set, the raw rate divided by 2 when only
the doublescan flag is set, and the raw rate unchanged when the two flags
agree (neither set, or both set). -/
theorem C1_getRefreshRate_correct (m : VideoOutputMode) :
    (m.interlace = true → m.doubleScan = false →
      m.getRefreshRate = m.rawRefresh * 2) ∧
    (m.doubleScan = true → m.interlace = false →
      m.getRefreshRate = m.rawRefresh / 2) ∧
    (m.interlace = m.doubleScan → m.getRefreshRate = m.rawRefresh) := by
  rcases m with ⟨w, h, r, i, d⟩
  cases i <;> cases d <;> simp [VideoOutputMode.getRefreshRate]

/-- C1 witness: the interlace-only branch doubles and the doublescan-only
branch halves the raw rate on concrete modes. -/
theorem C1_getRefreshRate_witness :
    VideoOutputMode.getRefreshRate ⟨800, 600, 60, true, false⟩ = (60 : ℚ) * 2 ∧
    VideoOutputMode.getRefreshRate ⟨800, 600, 60, false, true⟩ = (60 : ℚ) / 2 :=
  ⟨(C1_getRefreshRate_correct ⟨800, 600, 60, true, false⟩).1 rfl rfl,
   (C1_getRefreshRate_correct ⟨800, 600, 60, false, true⟩).2.1 rfl rfl⟩

/-- C9: for every Controller, `isEnabled` is true iff the controller has
at least one active Output and a bound Mode, and after
`resetConfiguration` (which clears the active-output set and the bound
mode) `isEnabled` is false. -/
theorem C9_isEnabled_iff_reset_disables (c : VideoController) :
    (c.isEnabled = true ↔ c.activeOutputs ≠ [] ∧ c.mode.isSome = true) ∧
    (c.resetConfiguration.1.isEnabled = false) := by
  constructor
  · rcases c with ⟨i, p, w, h, mo, outs⟩
    cases outs <;> cases mo <;>
      simp [VideoController.isEnabled, VideoController.resetConfiguration]
  · rfl

/-- C9 witness: a concrete controller with one active output and a bound
mode is enabled, and the same controller after `resetConfiguration` is
disabled. -/
theorem C9_isEnabled_witness :
    VideoController.isEnabled
      ⟨1, ⟨0, 0⟩, 800, 600, some ⟨800, 600, 60, false, false⟩,
        [⟨true, 344, 193, [1]⟩]⟩ = true ∧
    VideoController.isEnabled
      (VideoController.resetConfiguration
        ⟨1, ⟨0, 0⟩, 800, 600, some ⟨800, 600, 60, false, false⟩,
          [⟨true, 344, 193, [1]⟩]⟩).1 = false :=
  ⟨(C9_isEnabled_iff_reset_disables _).1.mpr ⟨List.cons_ne_nil _ _, rfl⟩,
   (C9_isEnabled_iff_reset_disables _).2⟩

/-- C8: for every Monitor with a bound Output, `setController` checks
`isControllerSupported` against that Output and, when the controller is
unsupported, reports failure and leaves the Monitor entirely
unchanged. -/
theorem C8_setController_unsupported_no_mutation
    (m : Monitor) (c : VideoController) (o : VideoOutput)
    (h1 : m.videoOutput = some o)
    (h2 : o.isControllerSupported c = false) :
    m.setController c = (false, m) := by
  simp [Monitor.setController, Monitor.isControllerSupported, h1, h2]

/-- C8 witness: a Monitor bound to an Output that only supports the
controller with id 1 rejects a controller with id 2 and is left
unchanged. -/
theorem C8_setController_witness :
    Monitor.setController
      { Monitor.new with videoOutput := some ⟨true, 344, 193, [1]⟩ }
      ⟨2, ⟨0, 0⟩, 0, 0, none, []⟩ =
    (false, { Monitor.new with videoOutput := some ⟨true, 344, 193, [1]⟩ }) :=
  C8_setController_unsupported_no_mutation _ _ ⟨true, 344, 193, [1]⟩ rfl (by decide)

/-- C7: `calculateLimits` is memoized: a second call without invalidation
changes nothing (the composite equals a single call, for every Monitor),
and invalidation by a mode change (`setOutputMode` clears the flag)
followed by recomputation yields the updated limits of the new Mode. -/
theorem C7_calculateLimits_memoized :
    (∀ m : Monitor, m.calculateLimits.calculateLimits = m.calculateLimits) ∧
    (∀ (m : Monitor) (md : VideoOutputMode) (o : VideoOutput),
      m.videoOutput = some o →
      (m.setOutputMode md).calculateLimits.yAxisMaxWidth = md.width ∧
      (m.setOutputMode md).calculateLimits.xAxisMaxHeight = md.height ∧
      (m.setOutputMode md).calculateLimits.xAxisMaxHeightmm = o.heightMm ∧
      (m.setOutputMode md).calculateLimits.yAxisMaxWidthmm = o.widthMm ∧
      (m.setOutputMode md).calculateLimits.limitsCalculated = true) := by
  constructor
  · intro m
    rcases m with ⟨mo, ct, ou, a, b, amm, bmm, flag⟩
    cases flag <;> cases mo <;> cases ou <;>
      simp [Monitor.calculateLimits]
  · intro m md o ho
    simp [Monitor.setOutputMode, Monitor.calculateLimits, ho]

/-- C7 witness: on a concrete Monitor bound to a concrete Output, a mode
change to 1024x768 followed by `calculateLimits` yields the updated
extents and the set flag. -/
theorem C7_calculateLimits_witness :
    (Monitor.calculateLimits
      (Monitor.setOutputMode
        { Monitor.new with videoOutput := some ⟨true, 344, 193, [1]⟩ }
        ⟨1024, 768, 60, false, false⟩)).yAxisMaxWidth = 1024 ∧
    (Monitor.calculateLimits
      (Monitor.setOutputMode
        { Monitor.new with videoOutput := some ⟨true, 344, 193, [1]⟩ }
        ⟨1024, 768, 60, false, false⟩)).xAxisMaxHeight = 768 ∧
    (Monitor.calculateLimits
      (Monitor.setOutputMode
        { Monitor.new with videoOutput := some ⟨true, 344, 193, [1]⟩ }
        ⟨1024, 768, 60, false, false⟩)).limitsCalculated = true := by
  have h := C7_calculateLimits_memoized.2
    { Monitor.new with videoOutput := some ⟨true, 344, 193, [1]⟩ }
    ⟨1024, 768, 60, false, false⟩ ⟨true, 344, 193, [1]⟩ rfl
  exact ⟨h.1, h.2.1, h.2.2.2.2⟩

/-- C10: a freshly constructed Monitor has its mode, controller and
output references all null, its four cached extents zero, and its
limits-calculated flag false, exactly as the in-class initializers of the
header prescribe; and before the setters have been called the
configuration operations are vacuous: `calculateLimits` computes nothing
and `setController` fails for every controller without mutation. -/
theorem C10_fresh_monitor_defaults :
    Monitor.new.videoMode = none ∧
    Monitor.new.videoController = none ∧
    Monitor.new.videoOutput = none ∧
    Monitor.new.xAxisMaxHeight = 0 ∧
    Monitor.new.yAxisMaxWidth = 0 ∧
    Monitor.new.xAxisMaxHeightmm = 0 ∧
    Monitor.new.yAxisMaxWidthmm = 0 ∧
    Monitor.new.limitsCalculated = false ∧
    Monitor.new.calculateLimits = Monitor.new ∧
    (∀ c : VideoController, Monitor.new.setController c = (false, Monitor.new)) := by
  refine ⟨rfl, rfl, rfl, rfl, rfl, rfl, rfl, rfl, rfl, fun c => ?_⟩
  simp [Monitor.setController, Monitor.isControllerSupported, Monitor.new]

/-- C6: on the graph with primary P (800x600, index 0) whose right wing
is R (1024x768, index 1), the position calculation places R at x = 800,
y = 0, and the total width of P is 800 + 1024 = 1824, the recursion
ending at R, which has no right neighbor. -/
theorem C6_right_chain_layout :
    (calculateMonitorPositions demoGraph 0 2).map (fun pos => pos 1) =
      some ⟨800, 0⟩ ∧
    demoGraph.getTotalWidth 2 0 = 1824 := by
  constructor <;> decide

/-- C3 counterexample: on the graph whose primary (at (0,0)) has a left
neighbor of width 1024 (index 1), the stored x coordinate of that left
neighbor is not the subtraction result 0 - 1024 claimed by the spec: the
unsigned point field wraps modulo 2^32 instead. -/
theorem C3_left_wing_counterexample :
    (calculateMonitorPositions wrapGraph 0 3).map (fun pos => ((pos 1).x : Int)) ≠
      some ((0 : Int) - 1024) := by
  decide

/-- C3 amended: the left-neighbor and top-neighbor subtractions are
carried out on the unsigned 32-bit fields of the point struct and
therefore wrap modulo 2^32: the left neighbor (width 1024) of the primary
at (0,0) is stored at x = 2^32 - 1024 = 4294966272 with y = 0, and the
top neighbor (height 480) at y = 2^32 - 480 = 4294966816 with x = 0. -/
theorem C3_left_wing_wraps :
    (calculateMonitorPositions wrapGraph 0 3).map (fun pos => (pos 1, pos 2)) =
      some (⟨4294966272, 0⟩, ⟨0, 4294966816⟩) := by
  decide

/-- C2 counterexample: `commit` is declared `void commit();` in the
header, so its returned component lives in `Unit` and carries no
success or failure information to the caller: a commit on a manager with
no primary (which aborts, staging nothing) and a commit on a manager with
a primary (which computes and stages positions) return the identical
value. -/
theorem C2_commit_void_counterexample :
    cmNoPrimary.commit.2 = cmWithPrimary.commit.2 ∧
    cmNoPrimary.commit.1.staged.isSome = false ∧
    cmWithPrimary.commit.1.staged.isSome = true := by
  refine ⟨rfl, by decide, by decide⟩

/-- C2 amended: `commit` is declared void and reports no success or
failure value to the caller; when no primary Monitor is designated (the
single primary pointer of the header is null, so more than one primary is
not representable) the commit aborts before any position computation or
Controller mutation, leaving the manager state entirely unchanged. -/
theorem C2_commit_missing_primary_aborts {n : Nat}
    (cm : ConfigurationManager n) (h : cm.primaryMonitor = none) :
    cm.commit = (cm, ()) := by
  unfold ConfigurationManager.commit
  rw [h]

/-- C2 witness: the concrete manager with no primary is returned
unchanged by `commit`. -/
theorem C2_commit_missing_primary_witness :
    cmNoPrimary.commit = (cmNoPrimary, ()) :=
  C2_commit_missing_primary_aborts cmNoPrimary rfl

/-- C5: after any nonempty sequence of `setMonitorPrimary` calls the
manager designates exactly one primary, namely the Monitor of the last
call (the single primary pointer of the header makes two simultaneous
primaries unrepresentable); in particular two successive calls with
different Monitors leave the second one as the sole primary. -/
theorem C5_single_primary {n : Nat} (cm : ConfigurationManager n)
    (ms : List (Fin n)) (h : ms ≠ []) :
    (ms.foldl ConfigurationManager.setMonitorPrimary cm).primaryMonitor =
      some (ms.getLast h) ∧
    ∀ a b : Fin n,
      ((cm.setMonitorPrimary a).setMonitorPrimary b).primaryMonitor = some b := by
  constructor
  · conv_lhs => rw [← List.dropLast_append_getLast h]
    rw [List.foldl_append]
    rfl
  · intro a b
    rfl

/-- C5 witness: on the concrete manager, the call sequence with Monitor 0
then Monitor 1 leaves Monitor 1 as the sole primary. -/
theorem C5_single_primary_witness :
    (([0, 1] : List (Fin 2)).foldl ConfigurationManager.setMonitorPrimary
      cmNoPrimary).primaryMonitor = some 1 := by
  have h := C5_single_primary cmNoPrimary [0, 1] (by decide)
  simpa using h.1

/-- Splitting a wing walk: `a + b` steps reach what `b` further steps
reach from the Monitor after `a` steps. -/
theorem iterW_add {n : Nat} (wing : Fin n → Option (Fin n)) (a b : Nat)
    (i : Fin n) :
    iterW wing (a + b) i = (iterW wing a i).bind (fun j => iterW wing b j) := by
  induction a generalizing i with
  | zero => simp [iterW, Nat.zero_add]
  | succ a ih =>
    rw [show a + 1 + b = (a + b) + 1 from by omega]
    cases hw : wing i with
    | none => simp [iterW, hw]
    | some j => simp [iterW, hw, ih]

/-- In an acyclic direction every chain ends within `n` steps: with only
`n` Monitors, a chain that never returns to a visited Monitor must run
off the end of the wing map. -/
theorem chain_terminates {n : Nat} (wing : Fin n → Option (Fin n))
    (hac : AcyclicChains wing) (i : Fin n) :
    ∃ m, m ≤ n ∧ iterW wing m i = none := by
  by_contra hcon
  push_neg at hcon
  have hsome : ∀ m : Fin (n + 1), (iterW wing m.val i).isSome := by
    intro m
    exact Option.isSome_iff_ne_none.mpr (hcon m.val (Nat.lt_succ_iff.mp m.isLt))
  have key : ∀ a b : Fin (n + 1), a.val < b.val →
      (iterW wing a.val i).get (hsome a) = (iterW wing b.val i).get (hsome b) →
      False := by
    intro a b hlt hfeq
    have ha : iterW wing a.val i = some ((iterW wing a.val i).get (hsome a)) :=
      (Option.some_get (hsome a)).symm
    have hb : iterW wing b.val i = some ((iterW wing b.val i).get (hsome b)) :=
      (Option.some_get (hsome b)).symm
    have hsplit := iterW_add wing a.val (b.val - a.val) i
    rw [Nat.add_sub_cancel' (Nat.le_of_lt hlt), ha, Option.some_bind] at hsplit
    rw [hb, ← hfeq] at hsplit
    have hblt : b.val < n + 1 := b.isLt
    exact hac ((iterW wing a.val i).get (hsome a)) (b.val - a.val)
      (by omega) (by omega) hsplit.symm
  obtain ⟨a, b, hab, hfab⟩ :=
    Fintype.exists_ne_map_eq_of_card_lt
      (fun m : Fin (n + 1) => (iterW wing m.val i).get (hsome m))
      (by simp)
  rcases Nat.lt_trichotomy a.val b.val with h | h | h
  · exact key a b h hfab
  · exact hab (Fin.ext h)
  · exact key b a h hfab.symm

/-- A wing walk completes whenever its chain ends within the fuel
budget. -/
theorem walkWing_isSome {n : Nat} (wing : Fin n → Option (Fin n))
    (mk : point → Fin n → Fin n → point) :
    ∀ (fuel : Nat) (i : Fin n) (pos : Fin n → point) (m : Nat),
      m ≤ fuel + 1 → iterW wing m i = none →
      (walkWing wing mk fuel i pos).isSome := by
  intro fuel
  induction fuel with
  | zero =>
    intro i pos m hm hnone
    cases hw : wing i with
    | none => simp [walkWing, hw]
    | some j =>
      exfalso
      match m, hm with
      | 0, _ => simp [iterW] at hnone
      | 1, _ => simp [iterW, hw] at hnone
  | succ fuel ih =>
    intro i pos m hm hnone
    cases hw : wing i with
    | none => simp [walkWing, hw]
    | some j =>
      match m, hm with
      | 0, _ => simp [iterW] at hnone
      | m + 1, hm =>
        rw [show iterW wing (m + 1) i = iterW wing m j from by simp [iterW, hw]]
          at hnone
        simp only [walkWing, hw]
        exact ih j _ m (by omega) hnone

/-- A wing walk starting at Monitor `i` leaves the position of any
Monitor untouched that the chain from `i` never reaches. -/
theorem walkWing_preserve {n : Nat} (wing : Fin n → Option (Fin n))
    (mk : point → Fin n → Fin n → point) :
    ∀ (fuel : Nat) (i : Fin n) (pos pos2 : Fin n → point) (q : Fin n),
      walkWing wing mk fuel i pos = some pos2 →
      (∀ k, 0 < k → k ≤ fuel + 1 → iterW wing k i ≠ some q) →
      pos2 q = pos q := by
  intro fuel
  induction fuel with
  | zero =>
    intro i pos pos2 q hwalk hk
    cases hw : wing i with
    | none =>
      simp only [walkWing, hw, Option.some.injEq] at hwalk
      rw [← hwalk]
    | some j => simp [walkWing, hw] at hwalk
  | succ fuel ih =>
    intro i pos pos2 q hwalk hk
    cases hw : wing i with
    | none =>
      simp only [walkWing, hw, Option.some.injEq] at hwalk
      rw [← hwalk]
    | some j =>
      simp only [walkWing, hw] at hwalk
      have hq : j ≠ q := by
        intro hjq
        exact hk 1 (by omega) (by omega) (by simp [iterW, hw, hjq])
      have hrec := ih j (updPos pos j (mk (pos i) i j)) pos2 q hwalk
        (fun k hk0 hk1 => by
          have hstep := hk (k + 1) (by omega) (by omega)
          rw [show iterW wing (k + 1) i = iterW wing k j from by
            simp [iterW, hw]] at hstep
          exact hstep)
      rw [hrec, updPos]
      simp [Ne.symm hq]

/-- C4: for every Monitor graph whose wing relation is acyclic along each
single direction, the position calculation (run with fuel equal to the
number of Monitors) terminates with a result, and the primary Monitor
ends at position (0,0). -/
theorem C4_positions_terminate {n : Nat} (g : MonitorGraph n) (p : Fin n)
    (hr : AcyclicChains g.rightWing) (hl : AcyclicChains g.leftWing)
    (ht : AcyclicChains g.topWing) (hb : AcyclicChains g.bottomWing) :
    ∃ pos, calculateMonitorPositions g p n = some pos ∧ pos p = ⟨0, 0⟩ := by
  have step : ∀ (wing : Fin n → Option (Fin n))
      (mk : point → Fin n → Fin n → point) (pos : Fin n → point),
      AcyclicChains wing →
      ∃ pos2, walkWing wing mk n p pos = some pos2 ∧ pos2 p = pos p := by
    intro wing mk pos hac
    obtain ⟨m, hm, hnone⟩ := chain_terminates wing hac p
    obtain ⟨pos2, hpos2⟩ := Option.isSome_iff_exists.mp
      (walkWing_isSome wing mk n p pos m (by omega) hnone)
    refine ⟨pos2, hpos2, ?_⟩
    exact walkWing_preserve wing mk n p pos pos2 p hpos2
      (fun k hk0 hk1 => hac p k (by omega) hk0)
  obtain ⟨pos1, h1, e1⟩ := step g.rightWing (mkRight g) (fun _ => ⟨0, 0⟩) hr
  obtain ⟨pos2, h2, e2⟩ := step g.leftWing (mkLeft g) pos1 hl
  obtain ⟨pos3, h3, e3⟩ := step g.topWing (mkTop g) pos2 ht
  obtain ⟨pos4, h4, e4⟩ := step g.bottomWing (mkBottom g) pos3 hb
  refine ⟨pos4, ?_, by rw [e4, e3, e2, e1]⟩
  unfold calculateMonitorPositions
  rw [h1, Option.some_bind, h2, Option.some_bind, h3, Option.some_bind, h4]

/-- C4 witness: on the concrete two-Monitor graph, whose four wing
directions are acyclic, the position calculation terminates and puts the
primary at (0,0). -/
theorem C4_positions_terminate_witness :
    ∃ pos, calculateMonitorPositions demoGraph 0 2 = some pos ∧
      pos 0 = ⟨0, 0⟩ :=
  C4_positions_terminate demoGraph 0 (by decide) (by decide) (by decide)
    (by decide)

end DisplayManager

end ThinkDock
